import Mathlib

/-!
Verification of the CampusPool client's derivation and UI-state logic
(frontend/src/App.js) against its specification.

JavaScript numbers that can be NaN are modelled as `Option ℚ` (`none` is
NaN): an invalid `Date` has a NaN timestamp, arithmetic propagates NaN, and
every comparison against NaN is false, exactly as in JS.
-/

/-- A JS number that may be NaN (`none`). A valid `Date`'s timestamp in
milliseconds is `some ms`; `new Date(malformed)` is an Invalid Date whose
numeric value is NaN, i.e. `none`. -/
abbrev JSNum := Option ℚ

/-- JS subtraction: NaN propagates. -/
def jsSub : JSNum → JSNum → JSNum
  | some a, some b => some (a - b)
  | _, _ => none

/-- JS division by a constant: NaN propagates. -/
def jsDivConst : JSNum → ℚ → JSNum
  | some a, c => some (a / c)
  | none, _ => none

/-- JS `x > c`: false when `x` is NaN. -/
def jsGt : JSNum → ℚ → Bool
  | some a, c => decide (c < a)
  | none, _ => false

/-- JS `x <= c`: false when `x` is NaN. -/
def jsLe : JSNum → ℚ → Bool
  | some a, c => decide (a ≤ c)
  | none, _ => false

/-- App.js 3124-3133 (`RideCard.isUrgentEligible`): from the ride's parsed
departure timestamp and the current time (both in ms, NaN when the ride's
date/time fields do not parse to a valid Date), compute
`diffMins = (rideDateTime - now) / (1000 * 60)` and return
`diffMins > 0 && diffMins <= 60`. -/
def isUrgentEligible (rideDateTime now : JSNum) : Bool :=
  let diffMins := jsDivConst (jsSub rideDateTime now) (1000 * 60)
  jsGt diffMins 0 && jsLe diffMins 60

/-- C1: the urgent-eligibility check returns true iff the departure is
strictly in the future and at most 60 minutes ahead; a departure 30 minutes
ahead is eligible, 90 minutes ahead is not, 5 minutes in the past is not. -/
theorem urgent_eligibility_iff (dep now : ℚ) :
    (isUrgentEligible (some dep) (some now) = true ↔
      0 < (dep - now) / 60000 ∧ (dep - now) / 60000 ≤ 60)
    ∧ isUrgentEligible (some (now + 30 * 60000)) (some now) = true
    ∧ isUrgentEligible (some (now + 90 * 60000)) (some now) = false
    ∧ isUrgentEligible (some (now - 5 * 60000)) (some now) = false := by
  refine ⟨?_, ?_, ?_, ?_⟩
  · simp only [isUrgentEligible, jsSub, jsDivConst, jsGt, jsLe, Bool.and_eq_true,
      decide_eq_true_eq]
    norm_num
  all_goals
    simp only [isUrgentEligible, jsSub, jsDivConst, jsGt, jsLe, Bool.and_eq_true,
      decide_eq_true_eq]
    norm_num

/-- C4: when the ride's date/time fields are missing or malformed, the
departure timestamp is NaN (`none`) and the urgent-eligibility check returns
false (the function is total in Lean, so it cannot throw; in the source a
`try/catch` additionally guards the body). -/
theorem urgent_fails_closed (rideDateTime now : JSNum)
    (h : rideDateTime = none) : isUrgentEligible rideDateTime now = false := by
  subst h
  cases now <;> rfl

/-- Witness for C4: a concrete malformed departure is not urgent-eligible. -/
theorem urgent_fails_closed_witness : isUrgentEligible none (some 0) = false :=
  urgent_fails_closed none (some 0) rfl

/-- The trust labels the classifier can produce. -/
inductive TrustLabel where
  | new_user
  | low_rating
  | regular
  | trusted
deriving DecidableEq

/-- JS comparison `avgRating != null && avgRating < t` for a nullable rating. -/
def ratingBelow (avgRating : Option ℚ) (t : ℚ) : Bool :=
  match avgRating with
  | some r => decide (r < t)
  | none => false

/-- JS comparison `avgRating >= t` for a nullable rating: in JS,
`null >= t` is false for positive `t`, so `none` yields false. -/
def ratingAtLeast (avgRating : Option ℚ) (t : ℚ) : Bool :=
  match avgRating with
  | some r => decide (t ≤ r)
  | none => false

/-- Modelled from the spec: the trust classifier runs server-side (only its
output is rendered by `TrustBadge` in App.js); src/ holds no implementation.
Spec 4.1: `rideCount < 3` gives new_user; else `avgRating != null &&
avgRating < 3.0` gives low_rating; else `rideCount >= 10 && avgRating >= 4.5`
gives trusted; else regular. -/
def classifyTrust (rideCount : ℕ) (avgRating : Option ℚ) : TrustLabel :=
  if rideCount < 3 then .new_user
  else if ratingBelow avgRating 3 then .low_rating
  else if decide (10 ≤ rideCount) && ratingAtLeast avgRating (45 / 10) then .trusted
  else .regular

/-- C2: characterization of the trust classifier: new_user exactly when
rideCount < 3; low_rating exactly for a non-null rating below 3.0 once past
the new_user check; trusted exactly for rideCount >= 10 with a non-null
rating >= 4.5; a null rating is never classified low_rating; and the spec's
four sample points hold. -/
theorem classifyTrust_spec (rc : ℕ) (ar : Option ℚ) :
    (classifyTrust rc ar = .new_user ↔ rc < 3)
    ∧ (classifyTrust rc ar = .low_rating ↔ 3 ≤ rc ∧ ∃ r, ar = some r ∧ r < 3)
    ∧ (classifyTrust rc ar = .trusted ↔
        10 ≤ rc ∧ ∃ r, ar = some r ∧ 45 / 10 ≤ r)
    ∧ (ar = none → classifyTrust rc ar ≠ .low_rating)
    ∧ classifyTrust 0 none = .new_user
    ∧ classifyTrust 15 (some (48 / 10)) = .trusted
    ∧ classifyTrust 5 (some (29 / 10)) = .low_rating
    ∧ classifyTrust 5 (some 4) = .regular := by
  refine ⟨?_, ?_, ?_, ?_, by decide, ?_, ?_, by decide⟩
  · unfold classifyTrust
    cases ar with
    | none =>
      simp only [ratingBelow, ratingAtLeast, Bool.and_false, if_false]
      split_ifs with h1 <;> simp [h1]
    | some r =>
      simp only [ratingBelow, ratingAtLeast]
      split_ifs <;> simp_all
  · unfold classifyTrust
    cases ar with
    | none =>
      simp only [ratingBelow, ratingAtLeast, Bool.and_false, if_false]
      split_ifs <;> simp_all
    | some r =>
      simp only [ratingBelow, ratingAtLeast]
      split_ifs with h1 h2 h3 <;> simp_all
  · unfold classifyTrust
    split_ifs with h1 h2 h3
    · constructor
      · intro h
        exact h.elim
      · rintro ⟨h10, -⟩
        omega
    · constructor
      · intro h
        exact h.elim
      · rintro ⟨h10, r, hr, hge⟩
        subst hr
        simp only [ratingBelow, decide_eq_true_eq] at h2
        linarith
    · constructor
      · intro _
        rw [Bool.and_eq_true, decide_eq_true_eq] at h3
        obtain ⟨h10, hge⟩ := h3
        cases ar with
        | none => exact absurd hge (by simp [ratingAtLeast])
        | some r =>
          refine ⟨h10, r, rfl, ?_⟩
          simpa [ratingAtLeast] using hge
      · intro _
        trivial
    · constructor
      · intro h
        exact h.elim
      · rintro ⟨h10, r, hr, hge⟩
        subst hr
        refine absurd ?_ h3
        simp only [Bool.and_eq_true, decide_eq_true_eq, ratingAtLeast]
        exact ⟨h10, hge⟩
  · intro h
    subst h
    unfold classifyTrust
    simp only [ratingBelow, ratingAtLeast, Bool.and_false, if_false]
    split_ifs <;> simp_all
  · norm_num [classifyTrust, ratingBelow, ratingAtLeast]
  · norm_num [classifyTrust, ratingBelow, ratingAtLeast]

/-- The record the eco-impact calculator produces. -/
structure EcoImpact where
  co2SavedKg : ℚ
  treesEquivalent : ℚ
deriving DecidableEq

/-- Modelled from the spec: the eco-impact arithmetic runs server-side (the
`EcoImpactBanner` in App.js only renders `/api/eco-impact` data); src/ holds
no implementation. Spec 4.1: `co2SavedKg = distanceKm * 0.21 * 0.5` and
`treesEquivalent = co2SavedKg / 21`. -/
def computeEcoImpact (distanceKm : ℚ) : EcoImpact :=
  let co2 := distanceKm * (21 / 100) * (1 / 2)
  { co2SavedKg := co2, treesEquivalent := co2 / 21 }

/-- C3: the eco-impact formulas hold exactly, and at 100 km the outputs are
10.5 kg CO2 saved and 0.5 trees equivalent. -/
theorem computeEcoImpact_spec (d : ℚ) :
    (computeEcoImpact d).co2SavedKg = d * (21 / 100) * (1 / 2)
    ∧ (computeEcoImpact d).treesEquivalent = (computeEcoImpact d).co2SavedKg / 21
    ∧ (computeEcoImpact 100).co2SavedKg = 21 / 2
    ∧ (computeEcoImpact 100).treesEquivalent = 1 / 2 := by
  refine ⟨rfl, rfl, by norm_num [computeEcoImpact], by norm_num [computeEcoImpact]⟩

/-- App.js 101-121 (`api` helper), error path: on a non-ok response the
thrown message is `data.detail || 'Something went wrong'`; in JS a missing
or empty `detail` is falsy, so both fall back to the generic message. -/
def apiErrorMessage (detail : Option String) : String :=
  match detail with
  | some s => if s = "" then "Something went wrong" else s
  | none => "Something went wrong"

/-- A server response as the `api` helper sees it: either ok with data, or
rejected with an optional `detail` field in the error body. -/
inductive ApiOutcome (α : Type) where
  | ok (data : α)
  | rejected (detail : Option String)

/-- App.js 101-121 (`api` helper): returns the parsed body on success and
throws `Error(data.detail || 'Something went wrong')` on a rejected call. -/
def apiCall {α : Type} (response : ApiOutcome α) : Except String α :=
  match response with
  | .ok d => .ok d
  | .rejected detail => .error (apiErrorMessage detail)

/-- The view state of the rider browse page: cached ride ids, cached request
ids, and the toasts shown so far. -/
structure BrowseState where
  rides : List ℕ
  requests : List ℕ
  toasts : List String
deriving DecidableEq

/-- App.js 4342-4353 (`requestRide`): POST the request; on success toast a
success message and reload the ride and request lists (`loadData`); on
rejection toast the error message and change nothing else. `reloaded` is
what `loadData` would set on success. -/
def requestRide (st : BrowseState) (isUrgent : Bool)
    (post : ApiOutcome Unit) (reloaded : List ℕ × List ℕ) : BrowseState :=
  match apiCall post with
  | .ok _ =>
    { rides := reloaded.1
      requests := reloaded.2
      toasts := st.toasts ++
        [if isUrgent then "Urgent ride requested!" else "Ride requested successfully!"] }
  | .error msg => { st with toasts := st.toasts ++ [msg] }

/-- C5: on a rejected API call the client extracts `data.detail` (or the
generic fallback when `detail` is missing or empty), shows it as a toast,
and leaves the view state unchanged: `requestRide` keeps `rides` and
`requests` exactly as they were. -/
theorem requestRide_rejected_frame (st : BrowseState) (isUrgent : Bool)
    (detail : Option String) (reloaded : List ℕ × List ℕ) :
    (requestRide st isUrgent (.rejected detail) reloaded).rides = st.rides
    ∧ (requestRide st isUrgent (.rejected detail) reloaded).requests = st.requests
    ∧ (requestRide st isUrgent (.rejected detail) reloaded).toasts
        = st.toasts ++ [apiErrorMessage detail]
    ∧ (detail = none → apiErrorMessage detail = "Something went wrong")
    ∧ (∀ s, detail = some s → s ≠ "" → apiErrorMessage detail = s)
    ∧ (detail = some "" → apiErrorMessage detail = "Something went wrong") := by
  refine ⟨rfl, rfl, rfl, ?_, ?_, ?_⟩
  · intro h
    subst h
    rfl
  · intro s hs hne
    subst hs
    simp [apiErrorMessage, hne]
  · intro h
    subst h
    rfl

/-- App.js 1737 (`StarRating`): the star picker renders one button per
element of `[1, 2, 3, 4, 5]`; clicking star `s` calls `setRating(s)`. -/
def starChoices : List ℕ := [1, 2, 3, 4, 5]

/-- The modal's `rating` state after a sequence of star clicks: it starts at
0 and each `setRating(s)` overwrites it with the clicked star. -/
def ratingAfterClicks (clicks : List ℕ) : ℕ :=
  clicks.foldl (fun _ s => s) 0

/-- The body `RatingModal.handleSubmit` POSTs to `/api/ratings`. -/
structure RatingPayload where
  ride_request_id : ℕ
  rating : ℕ
  feedback : Option String
deriving DecidableEq

/-- App.js 1843-1868 (`RatingModal.handleSubmit`): refuses to send while no
star is selected (`rating === 0`, toasts an error instead); otherwise sends
`{ride_request_id, rating, feedback: feedback.trim() || null}`. -/
def handleSubmitRating (rideRequestId : ℕ) (rating : ℕ) (feedback : String) :
    Option RatingPayload :=
  if rating = 0 then none
  else some
    { ride_request_id := rideRequestId
      rating := rating
      feedback := if feedback.trim = "" then none else some feedback.trim }

/-- C6: after any sequence of clicks on the star picker (each click a value
from `[1, 2, 3, 4, 5]`), every payload the submit handler actually sends
carries a rating between 1 and 5; with no star selected (rating 0) nothing
is sent. -/
theorem rating_submission_in_range (clicks : List ℕ) (rid : ℕ) (fb : String) :
    (∀ c ∈ clicks, c ∈ starChoices) →
      (handleSubmitRating rid (ratingAfterClicks clicks) fb = none
          ∨ ∃ p, handleSubmitRating rid (ratingAfterClicks clicks) fb = some p
              ∧ 1 ≤ p.rating ∧ p.rating ≤ 5)
      ∧ handleSubmitRating rid 0 fb = none := by
  intro hc
  refine ⟨?_, by simp [handleSubmitRating]⟩
  have hval : ratingAfterClicks clicks = 0 ∨ ratingAfterClicks clicks ∈ starChoices := by
    induction clicks with
    | nil => exact Or.inl rfl
    | cons c cs ih =>
      cases cs with
      | nil => exact Or.inr (hc c (by simp))
      | cons d ds =>
        have : ratingAfterClicks (c :: d :: ds) = ratingAfterClicks (d :: ds) := rfl
        rw [this]
        rcases ih (fun x hx => hc x (by simp [hx])) with h | h
        · exact Or.inl h
        · exact Or.inr h
  rcases hval with h | h
  · rw [h]
    exact Or.inl (by simp [handleSubmitRating])
  · right
    simp only [starChoices, List.mem_cons, List.not_mem_nil, or_false] at h
    have hne : ratingAfterClicks clicks ≠ 0 := by
      rcases h with h | h | h | h | h <;> omega
    refine ⟨{ ride_request_id := rid, rating := ratingAfterClicks clicks,
              feedback := if fb.trim = "" then none else some fb.trim }, ?_, ?_, ?_⟩
    · simp [handleSubmitRating, hne]
    · rcases h with h | h | h | h | h <;> simp [h]
    · rcases h with h | h | h | h | h <;> simp [h]

/-- Witness for C6: after clicking stars 3 then 4, the submitted payload
carries rating 4, inside 1..5. -/
theorem rating_submission_in_range_witness :
    (handleSubmitRating 7 (ratingAfterClicks [3, 4]) "" = none
        ∨ ∃ p, handleSubmitRating 7 (ratingAfterClicks [3, 4]) "" = some p
            ∧ 1 ≤ p.rating ∧ p.rating ≤ 5)
    ∧ handleSubmitRating 7 0 "" = none :=
  rating_submission_in_range [3, 4] 7 "" (by decide)

/-- The browser's interval-timer table: the next id to hand out and the
active intervals as (id, period in ms) pairs. -/
structure TimerState where
  nextId : ℕ
  active : List (ℕ × ℕ)
deriving DecidableEq

/-- `setInterval(f, periodMs)`: registers a new interval and returns its id. -/
def setIntervalTimer (st : TimerState) (periodMs : ℕ) : ℕ × TimerState :=
  (st.nextId, ⟨st.nextId + 1, st.active ++ [(st.nextId, periodMs)]⟩)

/-- `clearInterval(id)`: removes the interval with that id. -/
def clearIntervalTimer (st : TimerState) (id : ℕ) : TimerState :=
  ⟨st.nextId, st.active.filter (fun t => t.1 != id)⟩

/-- App.js 1091-1100 (chat `useEffect`): `setInterval(loadMessages, 3000)`,
with the id kept in `pollIntervalRef`. -/
def chatEffectSetup (st : TimerState) : ℕ × TimerState :=
  setIntervalTimer st 3000

/-- App.js 1095-1099 (chat effect cleanup): clears the interval if the ref
holds one. -/
def chatEffectCleanup (st : TimerState) (ref : Option ℕ) : TimerState :=
  match ref with
  | some id => clearIntervalTimer st id
  | none => st

/-- App.js 1267-1272 (live-ride `useEffect`): `setInterval(loadRideData,
10000)`. -/
def liveRideEffectSetup (st : TimerState) : ℕ × TimerState :=
  setIntervalTimer st 10000

/-- App.js 1271 (live-ride effect cleanup): `clearInterval(interval)`. -/
def liveRideEffectCleanup (st : TimerState) (id : ℕ) : TimerState :=
  clearIntervalTimer st id

/-- App.js 2809-2814 (admin SOS `useEffect`): `setInterval(loadSOS, 15000)`. -/
def sosEffectSetup (st : TimerState) : ℕ × TimerState :=
  setIntervalTimer st 15000

/-- App.js 2813 (SOS effect cleanup): `clearInterval(interval)`. -/
def sosEffectCleanup (st : TimerState) (id : ℕ) : TimerState :=
  clearIntervalTimer st id

/-- Freshly allocated ids never collide: every active id is below nextId. -/
def TimerState.wf (st : TimerState) : Prop :=
  ∀ t ∈ st.active, t.1 < st.nextId

theorem filter_fresh_id (l : List (ℕ × ℕ)) (n : ℕ) (h : ∀ t ∈ l, t.1 < n) :
    l.filter (fun t => t.1 != n) = l := by
  induction l with
  | nil => rfl
  | cons a as ih =>
    have ha : a.1 < n := h a (by simp)
    have : (a.1 != n) = true := by
      simp only [bne_iff_ne, ne_eq]
      omega
    simp only [List.filter_cons, this, if_true]
    rw [ih (fun t ht => h t (by simp [ht]))]

theorem setup_cleanup_round_trip (st : TimerState) (periodMs : ℕ)
    (hwf : st.wf) :
    (setIntervalTimer st periodMs).2.active
        = st.active ++ [((setIntervalTimer st periodMs).1, periodMs)]
    ∧ (clearIntervalTimer (setIntervalTimer st periodMs).2
        (setIntervalTimer st periodMs).1).active = st.active := by
  refine ⟨rfl, ?_⟩
  simp only [setIntervalTimer, clearIntervalTimer, List.filter_append]
  rw [filter_fresh_id st.active st.nextId hwf]
  simp

/-- C7: the chat effect polls every 3000 ms, the live-ride effect every
10000 ms, the SOS effect every 15000 ms; each effect's cleanup clears
exactly the interval it registered, so after teardown the timer table is
back to what it was before the effect mounted. -/
theorem polling_intervals_and_cleanup (st : TimerState) (hwf : st.wf) :
    (chatEffectSetup st).2.active
        = st.active ++ [((chatEffectSetup st).1, 3000)]
    ∧ (chatEffectCleanup (chatEffectSetup st).2
        (some (chatEffectSetup st).1)).active = st.active
    ∧ (liveRideEffectSetup st).2.active
        = st.active ++ [((liveRideEffectSetup st).1, 10000)]
    ∧ (liveRideEffectCleanup (liveRideEffectSetup st).2
        (liveRideEffectSetup st).1).active = st.active
    ∧ (sosEffectSetup st).2.active
        = st.active ++ [((sosEffectSetup st).1, 15000)]
    ∧ (sosEffectCleanup (sosEffectSetup st).2
        (sosEffectSetup st).1).active = st.active := by
  have h3 := setup_cleanup_round_trip st 3000 hwf
  have h10 := setup_cleanup_round_trip st 10000 hwf
  have h15 := setup_cleanup_round_trip st 15000 hwf
  exact ⟨h3.1, h3.2, h10.1, h10.2, h15.1, h15.2⟩

/-- Witness for C7: from an empty timer table, the chat, live-ride and SOS
effects register 3000 ms, 10000 ms and 15000 ms intervals and their
cleanups empty the table again. -/
theorem polling_intervals_and_cleanup_witness :
    (chatEffectSetup ⟨0, []⟩).2.active
        = [((chatEffectSetup ⟨0, []⟩).1, 3000)]
    ∧ (chatEffectCleanup (chatEffectSetup ⟨0, []⟩).2
        (some (chatEffectSetup ⟨0, []⟩).1)).active = []
    ∧ (liveRideEffectSetup ⟨0, []⟩).2.active
        = [((liveRideEffectSetup ⟨0, []⟩).1, 10000)]
    ∧ (liveRideEffectCleanup (liveRideEffectSetup ⟨0, []⟩).2
        (liveRideEffectSetup ⟨0, []⟩).1).active = []
    ∧ (sosEffectSetup ⟨0, []⟩).2.active
        = [((sosEffectSetup ⟨0, []⟩).1, 15000)]
    ∧ (sosEffectCleanup (sosEffectSetup ⟨0, []⟩).2
        (sosEffectSetup ⟨0, []⟩).1).active = [] :=
  polling_intervals_and_cleanup ⟨0, []⟩ (fun t ht => absurd ht (List.not_mem_nil t))

/-- App.js 5102-5105 (PIN input onChange): the typed value is stored as
`e.target.value.replace(/\D/g, '').slice(0, 4)` - non-digits stripped, then
truncated to 4 characters. -/
def sanitizePin (raw : String) : String :=
  String.mk ((raw.toList.filter Char.isDigit).take 4)

/-- The stored PIN for one request after a sequence of onChange events: it
starts as the empty string and each event overwrites it with the sanitized
new input value. -/
def pinAfter (events : List String) : String :=
  events.foldl (fun _ raw => sanitizePin raw) ""

/-- App.js 4893-4898 (`handleStartRide`): reads the stored PIN; when it is
missing, empty, or not exactly 4 characters long (`!pin || pin.length !==
4`) it toasts an error and sends nothing, otherwise it POSTs `{pin}`. -/
def startRidePayload (pin : Option String) : Option String :=
  match pin with
  | none => none
  | some p => if p = "" then none else if p.length ≠ 4 then none else some p

theorem sanitizePin_shape (raw : String) :
    (sanitizePin raw).length ≤ 4
    ∧ (sanitizePin raw).toList.all Char.isDigit = true := by
  constructor
  · show (String.mk ((raw.toList.filter Char.isDigit).take 4)).length ≤ 4
    have : (String.mk ((raw.toList.filter Char.isDigit).take 4)).length
        = ((raw.toList.filter Char.isDigit).take 4).length := rfl
    rw [this]
    exact (List.length_take_le 4 _)
  · show ((raw.toList.filter Char.isDigit).take 4).all Char.isDigit = true
    rw [List.all_eq_true]
    intro c hc
    exact List.of_mem_filter (List.mem_of_mem_take hc)

/-- C9: the stored PIN is always at most 4 characters, all decimal digits,
and the start-ride request goes out only with a stored PIN of length
exactly 4. -/
theorem pin_invariant_and_guard (events : List String) :
    (pinAfter events).length ≤ 4
    ∧ (pinAfter events).toList.all Char.isDigit = true
    ∧ (∀ p, startRidePayload (some (pinAfter events)) = some p → p.length = 4)
    ∧ startRidePayload none = none
    ∧ startRidePayload (some "") = none := by
  have hshape : (pinAfter events).length ≤ 4
      ∧ (pinAfter events).toList.all Char.isDigit = true := by
    cases events with
    | nil => exact ⟨by simp [pinAfter], by simp [pinAfter]⟩
    | cons e es =>
      have : ∀ (acc : String) (l : List String) (e0 : String),
          ((e0 :: l).foldl (fun _ raw => sanitizePin raw) acc).length ≤ 4
          ∧ ((e0 :: l).foldl (fun _ raw => sanitizePin raw) acc).toList.all
              Char.isDigit = true := by
        intro acc l
        induction l generalizing acc with
        | nil => exact fun e0 => sanitizePin_shape e0
        | cons d ds ih =>
          intro e0
          show (((d :: ds).foldl (fun _ raw => sanitizePin raw) (sanitizePin e0)).length ≤ 4)
            ∧ _
          exact ih (sanitizePin e0) d
      exact this "" es e
  refine ⟨hshape.1, hshape.2, ?_, rfl, rfl⟩
  intro p hp
  simp only [startRidePayload] at hp
  split_ifs at hp with h1 h2
  exact Option.some.inj hp ▸ (by omega)

/-- The four entries of the `styles` object literal in `TrustBadge`
(App.js 1765-1790). -/
inductive BadgeStyle where
  | trustedStyle
  | regularStyle
  | newStyle
  | lowStyle
deriving DecidableEq

/-- What `styles[trustLevel.level] || styles.new` (App.js 1792) can
evaluate to: one of the style records, or a truthy value inherited from
`Object.prototype` - a plain object literal still has the prototype chain,
so e.g. `styles["toString"]` is the inherited function, not undefined. -/
inductive StyleValue where
  | style (s : BadgeStyle)
  | inherited
deriving DecidableEq

/-- The property names a string-keyed lookup on a plain object literal
finds on `Object.prototype` (all truthy: functions, and the `__proto__`
accessor's object). -/
def objectPrototypeKeys : List String :=
  ["constructor", "hasOwnProperty", "isPrototypeOf", "propertyIsEnumerable",
   "toLocaleString", "toString", "valueOf", "__defineGetter__",
   "__defineSetter__", "__lookupGetter__", "__lookupSetter__", "__proto__"]

/-- App.js 1792: `styles[trustLevel.level] || styles.new`. An own key gives
its style record; an `Object.prototype` name gives a truthy inherited
value, so the `||` fallback is NOT taken; only a genuinely undefined lookup
(any other key) falls back to the `new` entry. -/
def styleFor (level : String) : StyleValue :=
  if level = "trusted" then .style .trustedStyle
  else if level = "regular" then .style .regularStyle
  else if level = "new" then .style .newStyle
  else if level = "low" then .style .lowStyle
  else if level ∈ objectPrototypeKeys then .inherited
  else .style .newStyle

/-- The `trust_level` object the server sends: a level key and a display
label. -/
structure TrustLevelInfo where
  level : String
  label : String
deriving DecidableEq

/-- A successfully rendered badge: a style and the label text. -/
structure RenderedBadge where
  style : BadgeStyle
  label : String
deriving DecidableEq

/-- The outcome of rendering `TrustBadge`. -/
inductive RenderResult where
  | nothing
  | badge (b : RenderedBadge)
  | thrown
deriving DecidableEq

/-- App.js 1762-1809 (`TrustBadge`): `if (!trustLevel) return null`; else
`const style = styles[trustLevel.level] || styles.new; const Icon =
style.icon;` and a badge showing `trustLevel.label`. When the lookup hit an
inherited `Object.prototype` value, `style.icon` is undefined and React
throws on rendering `<Icon />`. -/
def trustBadge (trustLevel : Option TrustLevelInfo) : RenderResult :=
  match trustLevel with
  | none => .nothing
  | some tl =>
    match styleFor tl.level with
    | .style s => .badge { style := s, label := tl.label }
    | .inherited => .thrown

/-- C10 counterexample: "toString" lies outside {trusted, regular, new,
low}, yet `TrustBadge` does not fall back to the `new` style there - the
lookup finds the inherited `Object.prototype.toString`, the `||` fallback
is skipped, and rendering throws on the undefined icon. -/
theorem trustBadge_toString_counterexample :
    ("toString" ∉ (["trusted", "regular", "new", "low"] : List String))
    ∧ trustBadge (some ⟨"toString", "Trusted"⟩) = .thrown
    ∧ trustBadge (some ⟨"toString", "Trusted"⟩)
        ≠ .badge { style := .newStyle, label := "Trusted" } := by
  refine ⟨by decide, by decide, by decide⟩

theorem protoKeys_outside_styles :
    ∀ s ∈ objectPrototypeKeys,
      s ∉ (["trusted", "regular", "new", "low"] : List String) := by
  decide

/-- C10 (amended): `TrustBadge` renders nothing when `trustLevel` is
absent; a level outside {trusted, regular, new, low} falls back to the
`new` style only when it is also not an `Object.prototype` property name,
while at such a name (e.g. "toString") the lookup yields a truthy inherited
value, the fallback is skipped, and rendering throws. -/
theorem trustBadge_total (tl : TrustLevelInfo) :
    trustBadge none = .nothing
    ∧ (tl.level ∉ (["trusted", "regular", "new", "low"] : List String) →
        tl.level ∉ objectPrototypeKeys →
        trustBadge (some tl) = .badge { style := .newStyle, label := tl.label })
    ∧ (tl.level ∈ objectPrototypeKeys → trustBadge (some tl) = .thrown) := by
  refine ⟨rfl, ?_, ?_⟩
  · intro h hp
    simp only [List.mem_cons, List.not_mem_nil, or_false, not_or] at h
    obtain ⟨h1, h2, h3, h4⟩ := h
    simp [trustBadge, styleFor, h1, h2, h3, h4, hp]
  · intro hp
    have hfour := protoKeys_outside_styles tl.level hp
    simp only [List.mem_cons, List.not_mem_nil, or_false, not_or] at hfour
    obtain ⟨h1, h2, h3, h4⟩ := hfour
    simp [trustBadge, styleFor, h1, h2, h3, h4, hp]

/-- Split a character list at every occurrence of `sep`, JS
`String.prototype.split` style (an empty trailing piece is kept). -/
def splitCharsOn (sep : Char) : List Char → List (List Char)
  | [] => [[]]
  | c :: cs =>
    let rest := splitCharsOn sep cs
    if c = sep then [] :: rest
    else
      match rest with
      | [] => [[c]]
      | r :: rs => (c :: r) :: rs

/-- JS `s.split(sep)` for a one-character separator. -/
def jsSplit (s : String) (sep : Char) : List String :=
  (splitCharsOn sep s.data).map String.mk

/-- JS `s.split(sep)[1]`: `none` plays undefined. -/
def jsSplitGet1 (s : String) : Option String :=
  (jsSplit s ':').get? 1

/-- JS `a || b` on a string-or-undefined value: undefined and the empty
string are falsy. -/
def jsOrOpt : Option String → Option String → Option String
  | some s, b => if s = "" then b else some s
  | none, b => b

/-- Character-list version of JS `String.prototype.startsWith`. -/
def startsWithChars : List Char → List Char → Bool
  | [], _ => true
  | _ :: _, [] => false
  | p :: ps, c :: cs => p == c && startsWithChars ps cs

/-- JS `s.startsWith(p)`. -/
def jsStartsWith (p s : String) : Bool :=
  startsWithChars p.data s.data

/-- The screens `AppContent` (App.js 7696-7797) can return once a user is
logged in. -/
inductive Screen where
  | adminVerifications
  | adminSOS
  | adminEventTags
  | adminUsers
  | adminReports
  | adminAuditLogs
  | adminRidesMonitoring
  | adminAnalytics
  | adminDashboard
  | postRide
  | driverRequests
  | statsPage
  | rideHistory
  | profilePage
  | liveRide (requestId : Option String)
  | driverDashboard
  | browseRides
  | myRequests
  | riderDashboard
deriving DecidableEq

/-- The fields of the logged-in user that `AppContent` routes on. -/
structure AppUser where
  is_admin : Bool
  role : String
deriving DecidableEq

/-- App.js 7733-7754: the admin switch. -/
def adminRoute (page : String) : Screen :=
  if page = "verifications" then .adminVerifications
  else if page = "sos" then .adminSOS
  else if page = "event-tags" then .adminEventTags
  else if page = "users" then .adminUsers
  else if page = "reports" then .adminReports
  else if page = "audit-logs" then .adminAuditLogs
  else if page = "rides-monitoring" then .adminRidesMonitoring
  else if page = "analytics" then .adminAnalytics
  else if page = "profile" then .profilePage
  else .adminDashboard

/-- App.js 7759-7777: the driver switch. The exact `live-ride` case reads
`currentPage.split(':')[1] || localStorage.getItem('liveRideId')`; the
default case opens the live-ride screen for `live-ride:`-prefixed strings
and the driver dashboard otherwise. -/
def driverRoute (page : String) (storedLiveRideId : Option String) : Screen :=
  if page = "post-ride" then .postRide
  else if page = "requests" then .driverRequests
  else if page = "stats" then .statsPage
  else if page = "history" then .rideHistory
  else if page = "live-ride" then
    .liveRide (jsOrOpt (jsSplitGet1 page) storedLiveRideId)
  else if page = "profile" then .profilePage
  else if jsStartsWith "live-ride:" page then .liveRide (jsSplitGet1 page)
  else .driverDashboard

/-- App.js 7781-7797: the rider switch, with the same default pattern. -/
def riderRoute (page : String) : Screen :=
  if page = "browse" then .browseRides
  else if page = "my-requests" then .myRequests
  else if page = "stats" then .statsPage
  else if page = "history" then .rideHistory
  else if page = "profile" then .profilePage
  else if jsStartsWith "live-ride:" page then .liveRide (jsSplitGet1 page)
  else .riderDashboard

/-- App.js 7731-7797 (`AppContent`): a logged-in user is dispatched to the
admin switch when `user.is_admin` holds, to the driver switch when
`user.role === 'driver'`, and to the rider switch otherwise. -/
def route (user : AppUser) (page : String) (storedLiveRideId : Option String) :
    Screen :=
  if user.is_admin then adminRoute page
  else if user.role = "driver" then driverRoute page storedLiveRideId
  else riderRoute page

/-- The screens reachable from the admin switch. -/
def isAdminScreen : Screen → Bool
  | .adminVerifications | .adminSOS | .adminEventTags | .adminUsers
  | .adminReports | .adminAuditLogs | .adminRidesMonitoring
  | .adminAnalytics | .adminDashboard | .profilePage => true
  | _ => false

/-- The screens reachable from the driver switch. -/
def isDriverScreen : Screen → Bool
  | .postRide | .driverRequests | .statsPage | .rideHistory | .profilePage
  | .liveRide _ | .driverDashboard => true
  | _ => false

/-- The screens reachable from the rider switch. -/
def isRiderScreen : Screen → Bool
  | .browseRides | .myRequests | .statsPage | .rideHistory | .profilePage
  | .liveRide _ | .riderDashboard => true
  | _ => false

/-- Does a screen show the live ride? -/
def isLiveRideScreen : Screen → Bool
  | .liveRide _ => true
  | _ => false

/-- The strings the admin switch matches. -/
def adminCases : List String :=
  ["verifications", "sos", "event-tags", "users", "reports", "audit-logs",
   "rides-monitoring", "analytics", "profile"]

/-- The strings the driver switch matches. -/
def driverCases : List String :=
  ["post-ride", "requests", "stats", "history", "live-ride", "profile"]

/-- The strings the rider switch matches. -/
def riderCases : List String :=
  ["browse", "my-requests", "stats", "history", "profile"]

/-- C8 counterexample: for an admin, the unmatched string "live-ride:5" is
prefixed "live-ride:" yet does NOT open the live-ride screen - it falls to
the admin dashboard, so the claimed live-ride fallthrough does not hold for
admin users. -/
theorem route_admin_live_ride_counterexample :
    jsStartsWith "live-ride:" "live-ride:5" = true
    ∧ route ⟨true, "rider"⟩ "live-ride:5" none = .adminDashboard
    ∧ isLiveRideScreen (route ⟨true, "rider"⟩ "live-ride:5" none) = false := by
  refine ⟨by decide, by decide, by decide⟩

theorem adminRoute_screen (page : String) :
    isAdminScreen (adminRoute page) = true := by
  unfold adminRoute
  split_ifs <;> rfl

theorem adminRoute_default (page : String) (h : page ∉ adminCases) :
    adminRoute page = .adminDashboard := by
  unfold adminRoute
  split_ifs <;> first
    | rfl
    | (exfalso; apply h; simp_all [adminCases])

theorem driverRoute_screen (page : String) (stored : Option String) :
    isDriverScreen (driverRoute page stored) = true := by
  unfold driverRoute
  split_ifs <;> rfl

theorem driverRoute_default (page : String) (stored : Option String)
    (h : page ∉ driverCases) :
    driverRoute page stored =
      if jsStartsWith "live-ride:" page then .liveRide (jsSplitGet1 page)
      else .driverDashboard := by
  unfold driverRoute
  split_ifs <;> first
    | rfl
    | (exfalso; apply h; simp_all [driverCases])

theorem riderRoute_screen (page : String) :
    isRiderScreen (riderRoute page) = true := by
  unfold riderRoute
  split_ifs <;> rfl

theorem riderRoute_default (page : String) (h : page ∉ riderCases) :
    riderRoute page =
      if jsStartsWith "live-ride:" page then .liveRide (jsSplitGet1 page)
      else .riderDashboard := by
  unfold riderRoute
  split_ifs <;> first
    | rfl
    | (exfalso; apply h; simp_all [riderCases])

/-- C8 (amended): routing is a total, role-gated function of
(user, currentPage): admins land only on admin screens and every unmatched
string - 'live-ride:'-prefixed ones included - falls to the admin
dashboard; non-admin drivers land only on driver screens and everyone else
only on rider screens, and for those two roles an unmatched string prefixed
'live-ride:' opens the live-ride screen while any other unmatched string
falls to the role's dashboard. -/
theorem route_role_gated (u : AppUser) (page : String)
    (stored : Option String) :
    (u.is_admin = true →
        isAdminScreen (route u page stored) = true
        ∧ (page ∉ adminCases → route u page stored = .adminDashboard))
    ∧ (u.is_admin = false → u.role = "driver" →
        isDriverScreen (route u page stored) = true
        ∧ (page ∉ driverCases → jsStartsWith "live-ride:" page = true →
            route u page stored = .liveRide (jsSplitGet1 page))
        ∧ (page ∉ driverCases → jsStartsWith "live-ride:" page = false →
            route u page stored = .driverDashboard))
    ∧ (u.is_admin = false → u.role ≠ "driver" →
        isRiderScreen (route u page stored) = true
        ∧ (page ∉ riderCases → jsStartsWith "live-ride:" page = true →
            route u page stored = .liveRide (jsSplitGet1 page))
        ∧ (page ∉ riderCases → jsStartsWith "live-ride:" page = false →
            route u page stored = .riderDashboard)) := by
  refine ⟨?_, ?_, ?_⟩
  · intro hA
    have hr : route u page stored = adminRoute page := by
      unfold route
      rw [if_pos (by simp [hA])]
    rw [hr]
    exact ⟨adminRoute_screen page, fun h => adminRoute_default page h⟩
  · intro hA hD
    have hr : route u page stored = driverRoute page stored := by
      unfold route
      rw [if_neg (by simp [hA]), if_pos hD]
    rw [hr]
    refine ⟨driverRoute_screen page stored, ?_, ?_⟩
    · intro h hsw
      rw [driverRoute_default page stored h, if_pos hsw]
    · intro h hsw
      rw [driverRoute_default page stored h, if_neg (by simp [hsw])]
  · intro hA hD
    have hr : route u page stored = riderRoute page := by
      unfold route
      rw [if_neg (by simp [hA]), if_neg hD]
    rw [hr]
    refine ⟨riderRoute_screen page, ?_, ?_⟩
    · intro h hsw
      rw [riderRoute_default page h, if_pos hsw]
    · intro h hsw
      rw [riderRoute_default page h, if_neg (by simp [hsw])]
